import Mathlib

/-!
Verification development for the EU Data Act compliance checker
(compliance-checks/compliance_checker.py and run_compliance_check.py).

The Python source is shallowly embedded as pure Lean functions.  External
collaborators (the rdflib graph store, the file system, the wall clock)
are modelled as explicit environment records whose fields record the
answers those collaborators give during one run: ask-query answers and
triple counts for a graph, existence/content outcome for a query file,
elapsed wall-clock seconds for one check.  Optional-string fields follow
Python truthiness (None and the empty string are falsy).
-/

namespace DataAct

/-- Python truthiness of an `Optional[str]` value: `None` and `""` are falsy,
every non-empty string is truthy. -/
def optStrTruthy : Option String → Bool
  | none => false
  | some s => decide (0 < s.length)

/-- ASCII lowercasing of a string, modelling Python `str.lower()` on the
ASCII file names the checker works with. -/
def strLower (s : String) : String := String.mk (s.data.map Char.toLower)

/-- Substring containment, modelling the Python expression `pat in s`. -/
def containsSub (s pat : String) : Bool :=
  (List.range (s.data.length + 1)).any
    (fun i => (s.data.drop i).take pat.data.length = pat.data)

/-- Slash-separated components of a POSIX path string. -/
def pathComponents (p : String) : List String :=
  (p.data.foldr
    (fun a acc =>
      match acc with
      | [] => [[a]]
      | h :: t => if a = '/' then [] :: h :: t else (a :: h) :: t)
    [[]]).map String.mk

/-- Final component of a POSIX path, modelling `pathlib.Path(p).name`:
empty and `.` components are dropped, the last remaining component is the
name (empty when nothing remains). -/
def pathName (p : String) : String :=
  ((pathComponents p).filter (fun c => c ≠ "" && c ≠ ".")).getLastD ""

/-- Stem of a path, modelling `pathlib.Path(p).stem`: the name without its
suffix, where the suffix starts at the last dot only when that dot is
neither the first nor the last character of the name. -/
def pathStem (p : String) : String :=
  let name := pathName p
  let cs := name.data
  match (((List.range cs.length).filter (fun i => cs.getD i ' ' = '.')).getLast?) with
  | some i => if 0 < i ∧ i + 1 < cs.length then String.mk (cs.take i) else name
  | none => name

/-- One violation record: the mapping built from one query-result row,
insertion order preserved (Python dict of variable name to string value). -/
abbrev Violation : Type := List (String × String)

/-- Result of one compliance check (`ComplianceResult` in
compliance_checker.py). -/
structure ComplianceResult where
  article_id : String
  article_name : String
  compliant : Bool
  violations : List Violation
  execution_time : ℚ
  error : Option String
deriving Repr, DecidableEq

/-- Constructor `ComplianceResult.__init__`: compliant starts true, no
violations, zero time, no error. -/
def ComplianceResult.init (article_id article_name : String) : ComplianceResult :=
  { article_id := article_id, article_name := article_name, compliant := true,
    violations := [], execution_time := 0, error := none }

/-- Method `ComplianceResult.add_violation`: sets compliant to false and
appends the record. -/
def ComplianceResult.add_violation (r : ComplianceResult) (v : Violation) :
    ComplianceResult :=
  { r with compliant := false, violations := r.violations ++ [v] }

/-- The field assignments a `ComplianceResult` undergoes after construction
in the source: `add_violation`, assigning `error`, assigning
`execution_time`. -/
inductive ResultOp where
  | addViolation (v : Violation)
  | setError (e : Option String)
  | setExecTime (t : ℚ)

/-- Apply one post-construction operation to a result. -/
def applyOp (r : ComplianceResult) : ResultOp → ComplianceResult
  | .addViolation v => r.add_violation v
  | .setError e => { r with error := e }
  | .setExecTime t => { r with execution_time := t }

/-- Apply a sequence of post-construction operations. -/
def applyOps (r : ComplianceResult) (ops : List ResultOp) : ComplianceResult :=
  ops.foldl applyOp r

/-- Full compliance report for one contract (`ContractComplianceReport`).
`timestamp` abstracts `datetime.now()` as an ambient string. -/
structure ContractComplianceReport where
  contract_name : String
  contract_path : String
  contract_type : Option String
  checks : List (String × ComplianceResult)
  timestamp : String
  total_triples : Nat
  load_error : Option String
deriving Repr, DecidableEq

/-- Constructor `ContractComplianceReport.__init__`. -/
def ContractComplianceReport.init (name path ts : String) :
    ContractComplianceReport :=
  { contract_name := name, contract_path := path, contract_type := none,
    checks := [], timestamp := ts, total_triples := 0, load_error := none }

/-- Derived field `overall_compliant`: false when `load_error` is truthy,
otherwise the conjunction of `compliant` over the checks whose `error` is
falsy. -/
def ContractComplianceReport.overall_compliant (r : ContractComplianceReport) :
    Bool :=
  if optStrTruthy r.load_error then false
  else (r.checks.filter (fun c => !optStrTruthy c.2.error)).all
    (fun c => c.2.compliant)

/-- Derived field `total_violations`: sum of violation counts over all
checks. -/
def ContractComplianceReport.total_violations (r : ContractComplianceReport) :
    Nat :=
  (r.checks.map (fun c => c.2.violations.length)).sum

/-- Method `add_check`: Python dict assignment `checks[article_id] = result`
on an insertion-ordered dict. -/
def ContractComplianceReport.add_check (r : ContractComplianceReport)
    (id : String) (res : ComplianceResult) : ContractComplianceReport :=
  if r.checks.any (fun c => c.1 = id) then
    { r with checks := r.checks.map (fun c => if c.1 = id then (id, res) else c) }
  else
    { r with checks := r.checks ++ [(id, res)] }

/-- JSON documents, the target of `to_dict`/`to_json`.  The Python `json`
module's dumps/loads round trip on such documents is an external stdlib
boundary, so the serialized-document form is modelled as this tree. -/
inductive Json where
  | null
  | bool (b : Bool)
  | num (q : ℚ)
  | str (s : String)
  | arr (xs : List Json)
  | obj (fields : List (String × Json))

/-- Embed an optional string as a JSON value (`None` becomes null). -/
def jsonOfOptStr : Option String → Json
  | none => Json.null
  | some s => Json.str s

/-- Rounding to two decimal places, modelling Python `round(x, 2)` on the
non-negative elapsed times that occur (ties abstracted as round-half-up). -/
def roundTo2 (x : ℚ) : ℚ := (Rat.floor (x * 100 + 1 / 2) : ℚ) / 100

/-- One violation record as a JSON object. -/
def violationToJson (v : Violation) : Json :=
  Json.obj (v.map (fun p => (p.1, Json.str p.2)))

/-- Method `ComplianceResult.to_dict`. -/
def ComplianceResult.to_dict (r : ComplianceResult) : Json :=
  Json.obj [
    ("article_id", Json.str r.article_id),
    ("article_name", Json.str r.article_name),
    ("compliant", Json.bool r.compliant),
    ("violation_count", Json.num (r.violations.length : ℚ)),
    ("violations", Json.arr (r.violations.map violationToJson)),
    ("execution_time_ms", Json.num (roundTo2 (r.execution_time * 1000))),
    ("error", jsonOfOptStr r.error)
  ]

/-- Method `ContractComplianceReport.to_dict`; `to_json` is
`json.dumps` of this document. -/
def ContractComplianceReport.to_dict (r : ContractComplianceReport) : Json :=
  Json.obj [
    ("contract_name", Json.str r.contract_name),
    ("contract_path", Json.str r.contract_path),
    ("contract_type", jsonOfOptStr r.contract_type),
    ("timestamp", Json.str r.timestamp),
    ("total_triples", Json.num (r.total_triples : ℚ)),
    ("overall_compliant", Json.bool r.overall_compliant),
    ("total_violations", Json.num (r.total_violations : ℚ)),
    ("checks", Json.obj (r.checks.map (fun c => (c.1, c.2.to_dict)))),
    ("load_error", jsonOfOptStr r.load_error)
  ]

/-- Field lookup in a JSON object document. -/
def Json.getField : Json → String → Option Json
  | Json.obj fs, k => (fs.find? (fun p => p.1 = k)).map Prod.snd
  | _, _ => none

/-- Read a JSON boolean. -/
def Json.asBool : Json → Option Bool
  | Json.bool b => some b
  | _ => none

/-- Read a JSON number. -/
def Json.asNum : Json → Option ℚ
  | Json.num q => some q
  | _ => none

/-- Read back, from a serialized report document, the derived per-rule pair
(compliant flag, violation count) recorded under the given rule id. -/
def readCheckDerived (doc : Json) (ruleId : String) : Option (Bool × ℚ) :=
  match Json.getField doc "checks" with
  | none => none
  | some checksDoc =>
    match Json.getField checksDoc ruleId with
    | none => none
    | some cd =>
      match (Json.getField cd "compliant").bind Json.asBool,
            (Json.getField cd "violation_count").bind Json.asNum with
      | some b, some n => some (b, n)
      | _, _ => none

/-- The graph-store boundary for one loaded graph: the answers the three
category ask-queries give, and the triple count (`len(g)`). -/
structure Graph where
  askB2C : Bool
  askB2B : Bool
  askB2G : Bool
  size : Nat
deriving Repr, DecidableEq

/-- The external interactions of one `execute_check` call: whether the query
file exists, what running the query text yields (the bound variable names
and the result rows, or the message of the raised exception), and the
elapsed wall-clock seconds measured around the call. -/
structure QueryEnv where
  fileExists : Bool
  vars : List String
  rows : List (List (String × String))
  queryError : Option String
  elapsed : ℚ
deriving Repr, DecidableEq

/-- Lookup of a variable binding in one result row (`getattr(row, var,
None)`; unbound variables are absent). -/
def rowLookup (row : List (String × String)) (v : String) : Option String :=
  (row.find? (fun p => p.1 = v)).map Prod.snd

/-- Build one violation record from a row: every bound variable in `vars`
mapped to its string form, unbound variables omitted. -/
def mkViolation (vars : List String) (row : List (String × String)) : Violation :=
  vars.filterMap (fun v => (rowLookup row v).map (fun s => (v, s)))

/-- Method `DataActComplianceChecker.execute_check`.  The `finally` block of
the source stores the elapsed time on every path, including the early
return taken when the query file is missing. -/
def execute_check (env : QueryEnv) (article_id article_name query_file : String) :
    ComplianceResult :=
  let result := ComplianceResult.init article_id article_name
  let result :=
    if !env.fileExists then
      { result with error := some ("Query file not found: " ++ query_file) }
    else
      match env.queryError with
      | some e => { result with error := some ("Error executing query: " ++ e) }
      | none =>
        env.rows.foldl (fun r row => r.add_violation (mkViolation env.vars row)) result
  { result with execution_time := env.elapsed }

/-- Outcome of building the merged graph in `load_contract`: success, or a
`FileNotFoundError`, or any other exception; in the failure cases the graph
object built so far is still returned alongside the error. -/
inductive LoadOutcome where
  | ok (g : Graph)
  | fileNotFound (g : Graph) (msg : String)
  | otherError (g : Graph) (msg : String)
deriving Repr, DecidableEq

/-- Method `DataActComplianceChecker.load_contract`: returns the graph and
an optional error message with the source's fixed message formats. -/
def load_contract : LoadOutcome → Graph × Option String
  | .ok g => (g, none)
  | .fileNotFound g m => (g, some ("File not found: " ++ m))
  | .otherError g m => (g, some ("Error loading contract: " ++ m))

/-- The static rule registry `article_mappings`, with `dict.get(t, [])`
lookup: each entry is (article id, article name, query file). -/
def article_mappings (t : String) : List (String × String × String) :=
  if t = "B2C" then [("4.1", "User Access Rights", "query-4.1.sparql")]
  else if t = "B2B" then [("8.6", "Trade Secret Exception", "query-8.6.sparql")]
  else if t = "B2G" then [("19.2a", "Competitive Use Prohibition", "query-19.2.a.sparql")]
  else []

/-- Method `DataActComplianceChecker.detect_contract_type`: name-based
detection on the lowercased stem of a truthy contract path first, then the
three graph ask-queries in order, then UNKNOWN. -/
def detect_contract_type (g : Graph) (contract_path : Option String) : String :=
  let byName : Option String :=
    match contract_path with
    | none => none
    | some p =>
      if p.length = 0 then none
      else
        let name := strLower (pathStem p)
        if containsSub name "b2c" then some "B2C"
        else if containsSub name "b2b" then some "B2B"
        else if containsSub name "b2g" then some "B2G"
        else none
  match byName with
  | some t => t
  | none =>
    if g.askB2C then "B2C"
    else if g.askB2B then "B2B"
    else if g.askB2G then "B2G"
    else "UNKNOWN"

/-- The external interactions of one `check_contract` call: how loading and
merging the graphs turns out, the per-query-file environment for the checks
that may run, and the construction-time timestamp. -/
structure CheckerEnv where
  loadOutcome : LoadOutcome
  queryEnv : String → QueryEnv
  now : String

/-- Default display name of a contract: the supplied name, or the path stem
when none is supplied (lines 279-280 of the source). -/
def contractDisplayName (contract_name : Option String) (contract_path : String) :
    String :=
  match contract_name with
  | some n => n
  | none => pathStem contract_path

/-- Method `DataActComplianceChecker.check_contract`. -/
def check_contract (env : CheckerEnv) (contract_path : String)
    (contract_name : Option String) : ContractComplianceReport :=
  let report := ContractComplianceReport.init
    (contractDisplayName contract_name contract_path) contract_path env.now
  let lr := load_contract env.loadOutcome
  if optStrTruthy lr.2 then
    { report with load_error := lr.2 }
  else
    let g := lr.1
    let report := { report with total_triples := g.size }
    let ct := detect_contract_type g (some contract_path)
    let report := { report with contract_type := some ct }
    if ct = "UNKNOWN" then
      { report with load_error := some "Could not determine contract type (B2C/B2B/B2G)" }
    else
      (article_mappings ct).foldl
        (fun rep d => rep.add_check d.1 (execute_check (env.queryEnv d.2.2) d.1 d.2.1 d.2.2))
        report

/-- Exit-code computation at the end of `main` in run_compliance_check.py:
0 when every report whose `load_error` is falsy is overall compliant,
else 1. -/
def main_exit_code (reports : List ContractComplianceReport) : Nat :=
  if (reports.filter (fun r => !optStrTruthy r.load_error)).all
      (fun r => r.overall_compliant) then 0 else 1

/-! ## Helper lemmas -/

/-- A non-empty string has positive length. -/
lemma length_pos_of_ne_empty (s : String) (h : s ≠ "") : 0 < s.length := by
  cases s with
  | mk data =>
    cases data with
    | nil => exact absurd rfl h
    | cons a l => simp [String.length]

/-- A non-empty string is truthy. -/
lemma optStrTruthy_some (s : String) (h : s ≠ "") : optStrTruthy (some s) = true := by
  have := length_pos_of_ne_empty s h
  simp [optStrTruthy, this]

/-- Post-construction operations preserve the compliant/violations
invariant. -/
lemma applyOp_inv (r : ComplianceResult) (op : ResultOp)
    (h : r.compliant = r.violations.isEmpty) :
    (applyOp r op).compliant = (applyOp r op).violations.isEmpty := by
  cases op with
  | addViolation v =>
    simp only [applyOp, ComplianceResult.add_violation]
    cases r.violations <;> simp
  | setError e => simpa [applyOp] using h
  | setExecTime t => simpa [applyOp] using h

/-- Sequences of post-construction operations preserve the invariant. -/
lemma applyOps_inv (ops : List ResultOp) (r : ComplianceResult)
    (h : r.compliant = r.violations.isEmpty) :
    (applyOps r ops).compliant = (applyOps r ops).violations.isEmpty := by
  induction ops generalizing r with
  | nil => simpa [applyOps] using h
  | cons op ops ih =>
    simpa [applyOps, List.foldl_cons] using ih (applyOp r op) (applyOp_inv r op h)

/-- The violation-appending fold of `execute_check` leaves the identifying
fields and the error field unchanged. -/
lemma foldl_add_violation_frame (vars : List String)
    (rows : List (List (String × String))) (r : ComplianceResult) :
    (rows.foldl (fun r row => r.add_violation (mkViolation vars row)) r).article_id =
        r.article_id ∧
      (rows.foldl (fun r row => r.add_violation (mkViolation vars row)) r).article_name =
        r.article_name ∧
      (rows.foldl (fun r row => r.add_violation (mkViolation vars row)) r).error =
        r.error := by
  induction rows generalizing r with
  | nil => exact ⟨rfl, rfl, rfl⟩
  | cons row rows ih =>
    simpa [List.foldl_cons, ComplianceResult.add_violation]
      using ih (r.add_violation (mkViolation vars row))

/-- Error messages produced by `load_contract` are never empty: both carry
a fixed non-empty message format. -/
lemma load_error_msg_pos (o : LoadOutcome) (e : String)
    (h : (load_contract o).2 = some e) : 0 < e.length := by
  cases o with
  | ok g => simp [load_contract] at h
  | fileNotFound g m =>
    simp only [load_contract, Option.some.injEq] at h
    rw [← h, String.length_append]
    have : 0 < ("File not found: " : String).length := by decide
    omega
  | otherError g m =>
    simp only [load_contract, Option.some.injEq] at h
    rw [← h, String.length_append]
    have : 0 < ("Error loading contract: " : String).length := by decide
    omega

/-- When loading fails, `check_contract` returns the freshly constructed
report with only `load_error` filled in. -/
lemma check_contract_load_error_eq (env : CheckerEnv) (p : String)
    (cn : Option String) (e : String)
    (h : (load_contract env.loadOutcome).2 = some e) :
    check_contract env p cn =
      { contract_name := contractDisplayName cn p, contract_path := p,
        contract_type := none, checks := [], timestamp := env.now,
        total_triples := 0, load_error := some e } := by
  have hpos := load_error_msg_pos env.loadOutcome e h
  simp only [check_contract, ContractComplianceReport.init, h]
  simp [optStrTruthy, hpos]

/-- Association-list lookup through a value-mapping respects membership at
nodup keys. -/
lemma find_map_assoc {β : Type} (l : List (String × ComplianceResult))
    (f : ComplianceResult → β) (id : String) (res : ComplianceResult)
    (hnd : (l.map Prod.fst).Nodup) (hmem : (id, res) ∈ l) :
    (l.map (fun c => (c.1, f c.2))).find? (fun p => p.1 = id) = some (id, f res) := by
  induction l with
  | nil => cases hmem
  | cons hd tl ih =>
    rcases List.mem_cons.mp hmem with heq | hmem'
    · rw [← heq]
      simp [List.find?]
    · by_cases hk : hd.1 = id
      · exfalso
        have hin : id ∈ tl.map Prod.fst := by
          exact List.mem_map.mpr ⟨(id, res), hmem', rfl⟩
        rw [List.map_cons, List.nodup_cons] at hnd
        exact hnd.1 (hk ▸ hin)
      · rw [List.map_cons]
        rw [List.find?_cons_of_neg]
        · exact ih (List.nodup_cons.mp (by rwa [List.map_cons] at hnd)).2 hmem'
        · simpa using hk

/-! ## Claim theorems -/

/-- C1: for every well-formed ContractReport (error messages are never the
empty string, as in every result the checker constructs), the derived
`overall_compliant` is false whenever `load_error` is non-null; otherwise it
equals the conjunction of the `compliant` flags over exactly the checks
whose `error` is null, and a report all of whose checks carry an error is
vacuously overall-compliant. -/
theorem C1_overall_compliant_spec (r : ContractComplianceReport)
    (hwf : ∀ c ∈ r.checks, c.2.error ≠ some "") :
    (∀ e, r.load_error = some e → e ≠ "" → r.overall_compliant = false) ∧
    (r.load_error = none →
      r.overall_compliant =
        (r.checks.filter (fun c => c.2.error = none)).all (fun c => c.2.compliant)) ∧
    (r.load_error = none → (∀ c ∈ r.checks, c.2.error ≠ none) →
      r.overall_compliant = true) := by
  have hfilter : r.checks.filter (fun c => !optStrTruthy c.2.error) =
      r.checks.filter (fun c => c.2.error = none) := by
    apply List.filter_congr
    intro c hc
    cases hcv : c.2.error with
    | none => simp [optStrTruthy]
    | some s =>
      have hs : s ≠ "" := by
        intro hemp
        exact hwf c hc (by rw [hcv, hemp])
      simp [optStrTruthy_some s hs]
  refine ⟨?_, ?_, ?_⟩
  · intro e he hne
    simp [ContractComplianceReport.overall_compliant, he, optStrTruthy_some e hne]
  · intro h0
    simp only [ContractComplianceReport.overall_compliant, h0]
    rw [if_neg (by decide), hfilter]
  · intro h0 hall
    have hnil : r.checks.filter (fun c => c.2.error = none) = [] := by
      rw [List.filter_eq_nil_iff]
      intro c hc
      simpa using hall c hc
    simp only [ContractComplianceReport.overall_compliant, h0]
    rw [if_neg (by decide), hfilter, hnil]
    rfl

/-- C1 witness: a report with a load error and a compliant error-free check
is not overall compliant; a load-error-free report whose only check carries
an error is vacuously overall compliant. -/
theorem C1_overall_compliant_spec_witness :
    ContractComplianceReport.overall_compliant
      { contract_name := "a", contract_path := "a.owl", contract_type := some "B2C",
        checks := [("4.1",
          { article_id := "4.1", article_name := "User Access Rights",
            compliant := true, violations := [], execution_time := 0, error := none })],
        timestamp := "t", total_triples := 5,
        load_error := some "Error loading contract: boom" } = false ∧
    ContractComplianceReport.overall_compliant
      { contract_name := "b", contract_path := "b.owl", contract_type := some "B2B",
        checks := [("8.6",
          { article_id := "8.6", article_name := "Trade Secret Exception",
            compliant := false,
            violations := [[("violationType", "X")]], execution_time := 0,
            error := some "Error executing query: bad" })],
        timestamp := "t", total_triples := 5, load_error := none } = true := by
  constructor
  · exact (C1_overall_compliant_spec _ (by decide)).1
      "Error loading contract: boom" rfl (by decide)
  · exact (C1_overall_compliant_spec _ (by decide)).2.2 rfl (by decide)

/-- C2: a freshly constructed CheckResult is compliant with no violations;
after any sequence of post-construction operations the compliant flag
equals emptiness of the violation sequence; `add_violation` appends the
record and forces compliant to false; setting the error field changes
neither the compliant flag nor the violations. -/
theorem C2_compliant_iff_no_violations (a n : String) (ops : List ResultOp) :
    ((ComplianceResult.init a n).compliant = true ∧
      (ComplianceResult.init a n).violations = []) ∧
    ((applyOps (ComplianceResult.init a n) ops).compliant =
      (applyOps (ComplianceResult.init a n) ops).violations.isEmpty) ∧
    (∀ (r : ComplianceResult) (v : Violation),
      (r.add_violation v).compliant = false ∧
        (r.add_violation v).violations = r.violations ++ [v]) ∧
    (∀ (r : ComplianceResult) (e : Option String),
      (applyOp r (.setError e)).compliant = r.compliant ∧
        (applyOp r (.setError e)).violations = r.violations) := by
  refine ⟨⟨rfl, rfl⟩, applyOps_inv ops _ rfl, ?_, ?_⟩
  · intro r v
    exact ⟨rfl, rfl⟩
  · intro r e
    exact ⟨rfl, rfl⟩

/-- C3: `execute_check` always returns a result carrying the rule's id and
name, with the elapsed time recorded in every outcome; a missing query file
or a query-execution failure yields a result with the corresponding error
message, no violations, and compliant still true. -/
theorem C3_execute_check_isolated (env : QueryEnv)
    (article_id article_name query_file : String) :
    (execute_check env article_id article_name query_file).execution_time =
        env.elapsed ∧
    (execute_check env article_id article_name query_file).article_id =
        article_id ∧
    (execute_check env article_id article_name query_file).article_name =
        article_name ∧
    (env.fileExists = false →
      (execute_check env article_id article_name query_file).error =
          some ("Query file not found: " ++ query_file) ∧
        (execute_check env article_id article_name query_file).violations = [] ∧
        (execute_check env article_id article_name query_file).compliant = true) ∧
    (∀ e, env.queryError = some e → env.fileExists = true →
      (execute_check env article_id article_name query_file).error =
          some ("Error executing query: " ++ e) ∧
        (execute_check env article_id article_name query_file).violations = [] ∧
        (execute_check env article_id article_name query_file).compliant = true) := by
  obtain ⟨fe, vars, rows, qe, el⟩ := env
  cases fe with
  | false =>
    refine ⟨rfl, rfl, rfl, fun _ => ⟨rfl, rfl, rfl⟩, ?_⟩
    intro e he h1
    exact Bool.noConfusion h1
  | true =>
    cases qe with
    | some e0 =>
      refine ⟨rfl, rfl, rfl, ?_, ?_⟩
      · intro h
        exact Bool.noConfusion h
      · intro e he _
        obtain rfl : e0 = e := by injection he
        exact ⟨rfl, rfl, rfl⟩
    | none =>
      have hframe := foldl_add_violation_frame vars rows
        (ComplianceResult.init article_id article_name)
      refine ⟨rfl, hframe.1, hframe.2.1, ?_, ?_⟩
      · intro h
        exact Bool.noConfusion h
      · intro e he _
        exact Option.noConfusion he

/-- C3 witness: a missing query file and a failing query both yield an
error-marked, violation-free, still-compliant result with the elapsed time
recorded. -/
theorem C3_execute_check_isolated_witness :
    (execute_check ⟨false, [], [], none, 5⟩ "4.1" "User Access Rights"
        "query-4.1.sparql").execution_time = 5 ∧
    (execute_check ⟨false, [], [], none, 5⟩ "4.1" "User Access Rights"
        "query-4.1.sparql").error = some "Query file not found: query-4.1.sparql" ∧
    (execute_check ⟨false, [], [], none, 5⟩ "4.1" "User Access Rights"
        "query-4.1.sparql").compliant = true ∧
    (execute_check ⟨true, [], [], some "syntax bad", 2⟩ "8.6"
        "Trade Secret Exception" "query-8.6.sparql").error =
      some "Error executing query: syntax bad" := by
  have h1 := C3_execute_check_isolated ⟨false, [], [], none, 5⟩ "4.1"
    "User Access Rights" "query-4.1.sparql"
  have h2 := C3_execute_check_isolated ⟨true, [], [], some "syntax bad", 2⟩ "8.6"
    "Trade Secret Exception" "query-8.6.sparql"
  refine ⟨h1.1, ((h1.2.2.2.1 rfl).1).trans (by decide), (h1.2.2.2.1 rfl).2.2,
    ((h2.2.2.2.2 "syntax bad" rfl rfl).1).trans (by decide)⟩

/-- C4 counterexample: the locator "foo.owl" is supplied and non-empty, its
lowercased stem contains none of the category tokens, yet the classifier
still reaches the graph ask-queries: a graph answering the B2C ask-query is
classified B2C, so a token miss with a locator present can be classified
via the graph, contradicting the claim. -/
theorem C4_counterexample :
    detect_contract_type ⟨true, false, false, 0⟩ (some "foo.owl") = "B2C" ∧
    detect_contract_type ⟨false, false, false, 0⟩ (some "foo.owl") = "UNKNOWN" ∧
    0 < ("foo.owl" : String).length ∧
    containsSub (strLower (pathStem "foo.owl")) "b2c" = false ∧
    containsSub (strLower (pathStem "foo.owl")) "b2b" = false ∧
    containsSub (strLower (pathStem "foo.owl")) "b2g" = false := by decide

/-- C4 amended: when the supplied locator's lowercased stem matches none of
the category tokens, the classifier falls through to the graph ask-queries —
exactly as it does when no locator is supplied — so the graph fallback is
reached on a token miss, not only in the absence of a locator. -/
theorem C4_locator_miss_falls_through (g : Graph) (p : String)
    (h1 : containsSub (strLower (pathStem p)) "b2c" = false)
    (h2 : containsSub (strLower (pathStem p)) "b2b" = false)
    (h3 : containsSub (strLower (pathStem p)) "b2g" = false) :
    detect_contract_type g (some p) = detect_contract_type g none := by
  by_cases h0 : p.length = 0 <;>
    simp only [detect_contract_type, h0, h1, h2, h3, if_true, if_false,
      Bool.false_eq_true, ite_self, if_neg, reduceIte]

/-- C4 amended witness: graph B2C classification goes through for a
token-missing locator. -/
theorem C4_locator_miss_falls_through_witness :
    detect_contract_type ⟨true, false, false, 0⟩ (some "foo.owl") =
      detect_contract_type ⟨true, false, false, 0⟩ none :=
  C4_locator_miss_falls_through ⟨true, false, false, 0⟩ "foo.owl"
    (by decide) (by decide) (by decide)

/-- C5: when loading or merging the contract graph fails, `check_contract`
returns a report whose `load_error` is the loader's descriptive message,
with zero checks, no recorded contract type, `overall_compliant` false and
`total_violations` 0. -/
theorem C5_load_failure_short_circuits (env : CheckerEnv) (p : String)
    (cn : Option String) (e : String)
    (h : (load_contract env.loadOutcome).2 = some e) :
    (check_contract env p cn).load_error = some e ∧
    (check_contract env p cn).checks = [] ∧
    (check_contract env p cn).contract_type = none ∧
    (check_contract env p cn).overall_compliant = false ∧
    (check_contract env p cn).total_violations = 0 := by
  have hpos := load_error_msg_pos env.loadOutcome e h
  rw [check_contract_load_error_eq env p cn e h]
  refine ⟨rfl, rfl, rfl, ?_, rfl⟩
  simp [ContractComplianceReport.overall_compliant, optStrTruthy, hpos]

/-- C5 witness: a parse failure short-circuits into a load-error report. -/
theorem C5_load_failure_short_circuits_witness :
    (check_contract
        ⟨.otherError ⟨false, false, false, 9⟩ "bad xml",
         fun _ => ⟨true, [], [], none, 0⟩, "t2"⟩ "c.owl" none).load_error =
      some "Error loading contract: bad xml" ∧
    (check_contract
        ⟨.otherError ⟨false, false, false, 9⟩ "bad xml",
         fun _ => ⟨true, [], [], none, 0⟩, "t2"⟩ "c.owl" none).checks = [] ∧
    (check_contract
        ⟨.otherError ⟨false, false, false, 9⟩ "bad xml",
         fun _ => ⟨true, [], [], none, 0⟩, "t2"⟩ "c.owl" none).overall_compliant =
      false ∧
    (check_contract
        ⟨.otherError ⟨false, false, false, 9⟩ "bad xml",
         fun _ => ⟨true, [], [], none, 0⟩, "t2"⟩ "c.owl" none).total_violations = 0 := by
  have h := C5_load_failure_short_circuits
    ⟨.otherError ⟨false, false, false, 9⟩ "bad xml",
     fun _ => ⟨true, [], [], none, 0⟩, "t2"⟩ "c.owl" none
    ("Error loading contract: " ++ "bad xml") rfl
  exact ⟨h.1.trans (by decide), h.2.1, h.2.2.2.1, h.2.2.2.2⟩

/-- C6: when the graph loads but the classifier yields UNKNOWN,
`check_contract` returns immediately with the could-not-determine message as
`load_error`, zero checks, and the category still recorded as UNKNOWN. -/
theorem C6_unknown_type_short_circuits (env : CheckerEnv) (p : String)
    (cn : Option String) (g : Graph)
    (h : load_contract env.loadOutcome = (g, none))
    (hu : detect_contract_type g (some p) = "UNKNOWN") :
    check_contract env p cn =
      { contract_name := contractDisplayName cn p, contract_path := p,
        contract_type := some "UNKNOWN", checks := [], timestamp := env.now,
        total_triples := g.size,
        load_error := some "Could not determine contract type (B2C/B2B/B2G)" } := by
  simp only [check_contract, ContractComplianceReport.init, h, hu]
  simp [optStrTruthy]

/-- C6 witness: a contract with neither a category token in its stem nor
any category instance in its graph yields the UNKNOWN short-circuit
report. -/
theorem C6_unknown_type_short_circuits_witness :
    check_contract
        ⟨.ok ⟨false, false, false, 3⟩, fun _ => ⟨true, [], [], none, 0⟩, "t1"⟩
        "contract.owl" none =
      { contract_name := "contract", contract_path := "contract.owl",
        contract_type := some "UNKNOWN", checks := [], timestamp := "t1",
        total_triples := 3,
        load_error := some "Could not determine contract type (B2C/B2B/B2G)" } :=
  (C6_unknown_type_short_circuits
      ⟨.ok ⟨false, false, false, 3⟩, fun _ => ⟨true, [], [], none, 0⟩, "t1"⟩
      "contract.owl" none ⟨false, false, false, 3⟩ rfl (by decide)).trans
    (by decide)

/-- C7: for any batch of reports whose load-error messages are never the
empty string, the CLI exit status is 0 exactly when every report without a
load error is overall compliant (load-error reports are excluded from the
conjunction), and the status is always 0 or 1. -/
theorem C7_exit_code_spec (rs : List ContractComplianceReport)
    (hwf : ∀ r ∈ rs, r.load_error ≠ some "") :
    (main_exit_code rs = 0 ↔
      ∀ r ∈ rs, r.load_error = none → r.overall_compliant = true) ∧
    (main_exit_code rs = 0 ∨ main_exit_code rs = 1) := by
  have hf : rs.filter (fun r => !optStrTruthy r.load_error) =
      rs.filter (fun r => r.load_error = none) := by
    apply List.filter_congr
    intro r hr
    cases hle : r.load_error with
    | none => simp [optStrTruthy]
    | some s =>
      have hs : s ≠ "" := by
        intro hemp
        exact hwf r hr (by rw [hle, hemp])
      simp [optStrTruthy_some s hs]
  constructor
  · rw [main_exit_code, hf]
    split
    case isTrue hall =>
      simp only [List.all_eq_true, List.mem_filter, decide_eq_true_eq] at hall
      exact ⟨fun _ r hr hn => hall r ⟨hr, hn⟩, fun _ => rfl⟩
    case isFalse hall =>
      constructor
      · intro h
        exact absurd h (by decide)
      · intro hp
        exfalso
        apply hall
        simp only [List.all_eq_true, List.mem_filter, decide_eq_true_eq]
        rintro r ⟨hr, hn⟩
        exact hp r hr hn
  · rw [main_exit_code]
    split
    · exact Or.inl rfl
    · exact Or.inr rfl

/-- C7 witness: a batch whose only non-compliant report is a load-error
report exits with status 0. -/
theorem C7_exit_code_spec_witness :
    main_exit_code
        [{ contract_name := "x", contract_path := "x.owl", contract_type := none,
           checks := [], timestamp := "t", total_triples := 0,
           load_error := some "File not found: x.owl" }] = 0 ∧
    ContractComplianceReport.overall_compliant
        { contract_name := "x", contract_path := "x.owl", contract_type := none,
          checks := [], timestamp := "t", total_triples := 0,
          load_error := some "File not found: x.owl" } = false := by
  refine ⟨(C7_exit_code_spec _ (by decide)).1.mpr ?_, by decide⟩
  intro r hr hn
  rw [List.mem_singleton] at hr
  subst hr
  exact absurd hn (by decide)

/-- C9: name-based detection is a function of the lowercased stem of the
locator alone — two non-empty locators with the same lowercased stem
classify identically, so tokens occurring only in directory components or
in the extension are ignored — and the tokens are tested in the fixed
priority order b2c, b2b, b2g, so a stem containing several tokens always
yields the first in that order. -/
theorem C9_stem_only_and_priority :
    (∀ (g : Graph) (p q : String), 0 < p.length → 0 < q.length →
      strLower (pathStem p) = strLower (pathStem q) →
      detect_contract_type g (some p) = detect_contract_type g (some q)) ∧
    (∀ (g : Graph) (p : String), 0 < p.length →
      (containsSub (strLower (pathStem p)) "b2c" = true →
        detect_contract_type g (some p) = "B2C") ∧
      (containsSub (strLower (pathStem p)) "b2c" = false →
        containsSub (strLower (pathStem p)) "b2b" = true →
        detect_contract_type g (some p) = "B2B") ∧
      (containsSub (strLower (pathStem p)) "b2c" = false →
        containsSub (strLower (pathStem p)) "b2b" = false →
        containsSub (strLower (pathStem p)) "b2g" = true →
        detect_contract_type g (some p) = "B2G")) := by
  constructor
  · intro g p q hp hq hst
    have hp0 : ¬ p.length = 0 := by omega
    have hq0 : ¬ q.length = 0 := by omega
    simp only [detect_contract_type, if_neg hp0, if_neg hq0, hst]
  · intro g p hp
    have hp0 : ¬ p.length = 0 := by omega
    refine ⟨?_, ?_, ?_⟩
    · intro h1
      simp only [detect_contract_type, if_neg hp0, h1, if_true]
    · intro h1 h2
      simp only [detect_contract_type, if_neg hp0, h1, h2, Bool.false_eq_true,
        if_false, if_true]
    · intro h1 h2 h3
      simp only [detect_contract_type, if_neg hp0, h1, h2, h3, Bool.false_eq_true,
        if_false, if_true]

/-- C9 witness: a token in a directory component or in the extension is
ignored (both locators share the stem "contract" and classify identically),
and a stem containing two tokens takes the earlier of the priority order
regardless of position. -/
theorem C9_stem_only_and_priority_witness :
    detect_contract_type ⟨false, false, false, 0⟩ (some "b2g/contract.owl") =
      detect_contract_type ⟨false, false, false, 0⟩ (some "contract.b2g") ∧
    detect_contract_type ⟨false, false, false, 0⟩ (some "x-b2b-b2c.owl") = "B2C" ∧
    detect_contract_type ⟨false, false, false, 0⟩ (some "x-b2c-b2b.owl") = "B2C" ∧
    detect_contract_type ⟨false, false, false, 0⟩ (some "x-b2b-b2g.owl") = "B2B" := by
  refine ⟨C9_stem_only_and_priority.1 ⟨false, false, false, 0⟩ "b2g/contract.owl"
      "contract.b2g" (by decide) (by decide) (by decide),
    (C9_stem_only_and_priority.2 ⟨false, false, false, 0⟩ "x-b2b-b2c.owl"
      (by decide)).1 (by decide),
    (C9_stem_only_and_priority.2 ⟨false, false, false, 0⟩ "x-b2c-b2b.owl"
      (by decide)).1 (by decide),
    (C9_stem_only_and_priority.2 ⟨false, false, false, 0⟩ "x-b2b-b2g.owl"
      (by decide)).2.1 (by decide) (by decide)⟩

/-- C10: when loading fails, every other field of the returned report keeps
its construction-time value — `total_triples` 0, no contract type, empty
checks, the construction timestamp and names — regardless of the partially
filled graph object the loader returned alongside the error. -/
theorem C10_load_failure_frame (env : CheckerEnv) (p : String)
    (cn : Option String) (e : String)
    (h : (load_contract env.loadOutcome).2 = some e) :
    check_contract env p cn =
      { contract_name := contractDisplayName cn p, contract_path := p,
        contract_type := none, checks := [], timestamp := env.now,
        total_triples := 0, load_error := some e } :=
  check_contract_load_error_eq env p cn e h

/-- C10 witness: the graph object returned with the load error holds 42
triples, yet the report keeps `total_triples` 0 and all other construction
values. -/
theorem C10_load_failure_frame_witness :
    (load_contract (LoadOutcome.otherError ⟨true, false, false, 42⟩ "boom")).1.size =
      42 ∧
    check_contract
        ⟨.otherError ⟨true, false, false, 42⟩ "boom",
         fun _ => ⟨true, [], [], none, 0⟩, "t3"⟩ "b2c-contract.owl" none =
      { contract_name := contractDisplayName none "b2c-contract.owl",
        contract_path := "b2c-contract.owl", contract_type := none, checks := [],
        timestamp := "t3", total_triples := 0,
        load_error := some ("Error loading contract: " ++ "boom") } :=
  ⟨rfl,
    C10_load_failure_frame
      ⟨.otherError ⟨true, false, false, 42⟩ "boom",
       fun _ => ⟨true, [], [], none, 0⟩, "t3"⟩ "b2c-contract.owl" none
      ("Error loading contract: " ++ "boom") rfl⟩

/-- C8: reading the serialized report document back yields, for every rule
id present in a report with distinct rule ids, the same compliant flag and
violation count as the in-memory report. -/
theorem C8_to_dict_round_trip (r : ContractComplianceReport) (id : String)
    (res : ComplianceResult)
    (hnd : (r.checks.map Prod.fst).Nodup) (hmem : (id, res) ∈ r.checks) :
    readCheckDerived (ContractComplianceReport.to_dict r) id =
      some (res.compliant, (res.violations.length : ℚ)) := by
  have h1 : Json.getField (ContractComplianceReport.to_dict r) "checks" =
      some (Json.obj (r.checks.map (fun c => (c.1, c.2.to_dict)))) := rfl
  have h2 := find_map_assoc r.checks ComplianceResult.to_dict id res hnd hmem
  have h3 : Json.getField (Json.obj (r.checks.map (fun c => (c.1, c.2.to_dict)))) id =
      some res.to_dict := by
    simp only [Json.getField, h2]
    rfl
  simp only [readCheckDerived, h1, h3]
  rfl

/-- C8 witness: a concrete report document round-trips the derived per-rule
fields of its single check. -/
theorem C8_to_dict_round_trip_witness :
    readCheckDerived
        (ContractComplianceReport.to_dict
          { contract_name := "a", contract_path := "a.owl",
            contract_type := some "B2C",
            checks := [("4.1",
              { article_id := "4.1", article_name := "User Access Rights",
                compliant := false,
                violations := [[("violationType", "NoAccessPath")]],
                execution_time := 0, error := none })],
            timestamp := "t", total_triples := 5, load_error := none }) "4.1" =
      some (false, (1 : ℚ)) :=
  C8_to_dict_round_trip _ "4.1"
    { article_id := "4.1", article_name := "User Access Rights",
      compliant := false, violations := [[("violationType", "NoAccessPath")]],
      execution_time := 0, error := none }
    (by decide) (by simp)

end DataAct
